import Mathlib

/-!
Shallow embedding of the SolixBLE library (src/SolixBLE.py): the telemetry
decoder, the session state machine around connect/disconnect, and the
observer-callback registry, with theorems checking the specification's
claims against this embedding.
-/

namespace SolixBLE

/-! ## Constants (module-level constants of SolixBLE.py) -/

/-- Size of expected telemetry packet in bytes. -/
def EXPECTED_TELEMETRY_SIZE : Nat := 253

/-- Int value for unknown int attributes. -/
def DEFAULT_METADATA_INT : Int := -1

/-- Maximum number of automatic re-connection attempts. -/
def RECONNECT_ATTEMPTS_MAX : Int := 5

/-! ## Byte-level helpers

Bytes are modelled as natural numbers (each `< 256` in real frames);
`from_bytes_le` is Python's `int.from_bytes(bs, byteorder="little")`
(unsigned, the default). A Python slice `data[i:i+len]` on a list of
bytes is `byteSlice data i len`. -/

def from_bytes_le : List Nat → Nat
  | [] => 0
  | b :: bs => b + 256 * from_bytes_le bs

def byteSlice (data : List Nat) (i len : Nat) : List Nat :=
  (data.drop i).take len

/-- `SolixBLEDevice._parse_int`: 16-bit little-endian integer at `index`. -/
def _parse_int (data : List Nat) (index : Nat) : Nat :=
  from_bytes_le (byteSlice data index 2)

/-- `SolixBLEDevice._parse_int32`: 32-bit little-endian integer at `index`. -/
def _parse_int32 (data : List Nat) (index : Nat) : Nat :=
  from_bytes_le (byteSlice data index 4)

/-- Python's `bytes.decode('ascii')`: succeeds iff every byte is `< 128`,
otherwise raises `UnicodeDecodeError` (modelled as `none`). -/
def decode_ascii (bs : List Nat) : Option String :=
  if bs.all (fun b => b < 128) then some (String.mk (bs.map Char.ofNat))
  else none

/-! ## Telemetry state

The telemetry-related attributes of `SolixBLEDevice` (`__init__`,
lines 162-178). Numeric fields that Python stores as floats after a
scale division are modelled as rationals; fields not yet decoded are
`none` (Python `None`). -/

structure TelemetryState where
  serial_no : Option String
  charge_percentage_battery : Option Nat
  temperature_battery : Option Nat
  power_battery_discharge : Option ℚ
  energy_battery_total_in : Option ℚ
  power_ac_out : Option ℚ
  power_solar_in : Option ℚ
  energy_solar_total_in : Option ℚ
  energy_total_out : Option ℚ
  unknown1 : Option Nat
  unknown2 : Option Nat
  unknown3 : Option ℚ
  data : Option (List Nat)
  last_data_timestamp : Option Nat
deriving DecidableEq, Repr

/-- The freshly-initialised telemetry state (`SolixBLEDevice.__init__`). -/
def initTelemetry : TelemetryState where
  serial_no := none
  charge_percentage_battery := none
  temperature_battery := none
  power_battery_discharge := none
  energy_battery_total_in := none
  power_ac_out := none
  power_solar_in := none
  energy_solar_total_in := none
  energy_total_out := none
  unknown1 := none
  unknown2 := none
  unknown3 := none
  data := none
  last_data_timestamp := none

/-- Outcome of one `_parse_telemetry` call: `ok` (all fields updated),
`sizeMismatch` / `typeMismatch` (silent early return, lines 586-598), or
`asciiError` (Python raises `UnicodeDecodeError` from
`data[0x10:0x20].decode('ascii')`, line 604). -/
inductive ParseOutcome
  | ok
  | sizeMismatch
  | typeMismatch
  | asciiError
deriving DecidableEq, Repr

/-- `SolixBLEDevice._parse_telemetry` (lines 575-640), as a function from
the prior telemetry state, the capture time and the payload to the new
state and the outcome. Mutations happen in source order: `_data` and
`_last_data_timestamp` are assigned (lines 600-601) before the serial
decode (line 604), so if the decode raises, those two assignments have
already taken effect. The assignment `self.unknown2 = data[91]` is
commented out in the source (line 616) and therefore absent here. -/
def _parse_telemetry (s : TelemetryState) (now : Nat) (data : List Nat) :
    TelemetryState × ParseOutcome :=
  if data.length ≠ EXPECTED_TELEMETRY_SIZE then
    (s, ParseOutcome.sizeMismatch)
  else if data.getD 8 0 ≠ 0x05 ∨ data.getD 9 0 ≠ 0x13 then
    (s, ParseOutcome.typeMismatch)
  else
    let s1 := { s with data := some data, last_data_timestamp := some now }
    match decode_ascii (byteSlice data 0x10 16) with
    | none => (s1, ParseOutcome.asciiError)
    | some serial =>
      ({ s1 with
          serial_no := some serial
          charge_percentage_battery := some (data.getD 35 0)
          unknown1 := some (data.getD 39 0)
          temperature_battery := some (data.getD 73 0)
          power_solar_in := some ((_parse_int data 77 : ℚ) / 10)
          power_ac_out := some ((_parse_int data 84 : ℚ) / 10)
          unknown3 := some ((_parse_int32 data 103 : ℚ) / 100000)
          energy_solar_total_in := some ((_parse_int32 data 110 : ℚ) / 10000)
          energy_battery_total_in := some ((_parse_int32 data 117 : ℚ) / 100000)
          energy_total_out := some ((_parse_int32 data 124 : ℚ) / 10000)
          power_battery_discharge := some ((_parse_int32 data 132 : ℚ) / 100) },
       ParseOutcome.ok)

/-! ## Derived accessors (`@property` methods) -/

/-- `SolixBLEDevice.power_solar_in` (lines 444-454). -/
def power_solar_in (s : TelemetryState) : ℚ :=
  match s.power_solar_in with
  | some v => v
  | none => (DEFAULT_METADATA_INT : ℚ)

/-- `SolixBLEDevice.power_ac_out` (lines 432-442). -/
def power_ac_out (s : TelemetryState) : ℚ :=
  match s.power_ac_out with
  | some v => v
  | none => (DEFAULT_METADATA_INT : ℚ)

/-- `SolixBLEDevice.power_battery` (lines 456-466). -/
def power_battery (s : TelemetryState) : ℚ :=
  match s.power_solar_in, s.power_ac_out with
  | some si, some ao => si - ao
  | _, _ => (DEFAULT_METADATA_INT : ℚ)

/-! ## Observer registry

`self._state_changed_callbacks` is a Python list. A callback is modelled
by an identifier together with its behaviour when invoked: `true` means
the call raises an exception, `false` means it returns normally. -/

/-- One registered callback: `(identifier, raisesWhenInvoked)`. -/
abbrev Callback := Nat × Bool

/-- `SolixBLEDevice.add_callback` (line 194): `list.append` puts the new
callback at the end. -/
def add_callback (cbs : List Callback) (f : Callback) : List Callback :=
  cbs ++ [f]

/-- `SolixBLEDevice._run_state_changed_callbacks` (lines 306-309): a plain
`for` loop calling each callback with no exception handling. Returns the
identifiers of the callbacks that were invoked, in invocation order, and
whether an exception propagated out of the loop to the caller. A callback
that raises is itself invoked, but the loop stops there and the exception
propagates. -/
def _run_state_changed_callbacks : List Callback → List Nat × Bool
  | [] => ([], false)
  | f :: rest =>
    if f.2 then ([f.1], true)
    else
      let r := _run_state_changed_callbacks rest
      (f.1 :: r.1, r.2)

/-! ## Session state machine

`SolixBLEDevice`'s connection-lifecycle attributes. A Bleak client is
modelled by an identity and its `is_connected` flag. Effects on the
outside world (link establishment, GATT probing, subscription, observer
notification, link close, reconnect-task creation) are recorded in an
action trace. External behaviour that the code awaits (what
`establish_connection` returns, whether the telemetry characteristic is
present, whether probing or subscribing raises `BleakError`) is supplied
by a `ConnectEnv`. -/

structure Client where
  id : Nat
  is_connected : Bool
deriving DecidableEq, Repr

structure SessionState where
  client : Option Client
  supports_telemetry : Bool
  expect_disconnect : Bool
  connection_attempts : Nat
  timed_out : Bool
  has_reconnect_task : Bool
deriving DecidableEq, Repr

/-- Externally-visible effects of the session code. `closeLink` stands
for an actually executed transport-level link close; `discardCoroutine`
records a coroutine object that was created but never awaited, so its
body — including any link close it would have performed — never runs. -/
inductive Action
  | establishLink
  | probeServices
  | subscribe
  | notifyObservers
  | closeLink
  | discardCoroutine
  | scheduleReconnect
deriving DecidableEq, Repr

/-- Behaviour of the external transport during one `connect` call. -/
structure ConnectEnv where
  /-- Result of `establish_connection`: `some c` on success, `none` when
  it raises `BleakError`. -/
  establish : Option Client
  /-- Whether `services.get_characteristic(UUID_TELEMETRY)` is truthy. -/
  has_telemetry_char : Bool
  /-- Whether `_determine_services` raises `BleakError`. -/
  probe_raises : Bool
  /-- Whether `start_notify` raises `BleakError`. -/
  subscribe_raises : Bool
deriving DecidableEq, Repr

/-- `SolixBLEDevice.connected` (lines 376-382):
`self._client is not None and self._client.is_connected`. -/
def connected (s : SessionState) : Bool :=
  match s.client with
  | some c => c.is_connected
  | none => false

/-- `SolixBLEDevice.available` (lines 384-390):
`self.connected and self.supports_telemetry`. -/
def available (s : SessionState) : Bool :=
  connected s && s.supports_telemetry

/-- `SolixBLEDevice.connect` (lines 204-266). The `max_attempts`
parameter is passed through to `establish_connection` and does not
otherwise shape the control flow, so it is absorbed into `ConnectEnv`.
Returns the boolean result, the new session state, and the trace of
external effects in order. -/
def connect (env : ConnectEnv) (run_callbacks : Bool) (s : SessionState) :
    Bool × SessionState × List Action :=
  -- "If we are not connected then connect" (lines 214-232)
  let (s1, acts1) :=
    if connected s then (s, ([] : List Action))
    else
      let s' := { s with connection_attempts := s.connection_attempts + 1 }
      match env.establish with
      | some c => ({ s' with client := some c }, [Action.establishLink])
      | none => (s', [Action.establishLink])
  -- "If we are still not connected then we have failed" (lines 234-239)
  if ¬ connected s1 then (false, s1, acts1)
  else
    -- "If we are not subscribed to telemetry then check ..." (lines 243-252)
    let (s2, acts2, raised) :=
      if available s1 then (s1, acts1, false)
      else
        -- `_determine_services` (lines 349-374)
        if env.probe_raises then (s1, acts1 ++ [Action.probeServices], true)
        else
          let sp := { s1 with supports_telemetry := env.has_telemetry_char }
          -- `_subscribe_to_services` (lines 280-290)
          if sp.supports_telemetry then
            (sp, acts1 ++ [Action.probeServices, Action.subscribe],
             env.subscribe_raises)
          else (sp, acts1 ++ [Action.probeServices], false)
    if raised then (false, s2, acts2)
    -- "If we are still not subscribed to telemetry ..." (lines 254-256)
    else if ¬ available s2 then (false, s2, acts2)
    else
      -- success path (lines 258-266)
      let s3 := { s2 with expect_disconnect := false, connection_attempts := 0 }
      if run_callbacks then (true, s3, acts2 ++ [Action.notifyObservers])
      else (true, s3, acts2)

/-- `SolixBLEDevice.disconnect` (lines 268-278): set
`_expect_disconnect`, then, if a client is held, evaluate
`self._client.disconnect()` and drop the reference. `BleakClient.disconnect`
is a coroutine function and the call at line 277 is not awaited, so the
expression only creates and discards a coroutine object: no link close is
ever executed. The trace therefore records `discardCoroutine`, not
`closeLink`. -/
def disconnect (s : SessionState) : SessionState × List Action :=
  let s1 := { s with expect_disconnect := true }
  match s1.client with
  | some _ => ({ s1 with client := none }, [Action.discardCoroutine])
  | none => (s1, [])

/-- `SolixBLEDevice._disconnect_callback` (lines 311-347), invoked by the
transport with the client the signal originates from. Returns the new
state and the trace of effects (only `scheduleReconnect` can occur; the
handler body never invokes observer callbacks). -/
def _disconnect_callback (s : SessionState) (client : Client) :
    SessionState × List Action :=
  -- "Ignore disconnect callbacks from old clients" (lines 322-324)
  if some client ≠ s.client then (s, [])
  else
    let s1 := { s with supports_telemetry := false }
    -- "If we expected the disconnect ..." (lines 329-332)
    if s1.expect_disconnect then (s1, [])
    -- reconnect if attempts remain (lines 336-347)
    else if RECONNECT_ATTEMPTS_MAX = -1
        ∨ (s1.connection_attempts : Int) < RECONNECT_ATTEMPTS_MAX then
      ({ s1 with has_reconnect_task := true }, [Action.scheduleReconnect])
    else (s1, [])

/-! ## Helper lemmas: the four control paths of `_parse_telemetry` -/

set_option maxRecDepth 8000

theorem parse_size_eq (s : TelemetryState) (now : Nat) (data : List Nat)
    (h : data.length ≠ EXPECTED_TELEMETRY_SIZE) :
    _parse_telemetry s now data = (s, ParseOutcome.sizeMismatch) := by
  unfold _parse_telemetry
  rw [if_pos h]

theorem parse_type_eq (s : TelemetryState) (now : Nat) (data : List Nat)
    (hlen : data.length = EXPECTED_TELEMETRY_SIZE)
    (h : data.getD 8 0 ≠ 0x05 ∨ data.getD 9 0 ≠ 0x13) :
    _parse_telemetry s now data = (s, ParseOutcome.typeMismatch) := by
  unfold _parse_telemetry
  rw [if_neg (by simp [hlen]), if_pos h]

theorem parse_ascii_eq (s : TelemetryState) (now : Nat) (data : List Nat)
    (hlen : data.length = EXPECTED_TELEMETRY_SIZE)
    (h8 : data.getD 8 0 = 0x05) (h9 : data.getD 9 0 = 0x13)
    (hser : decode_ascii (byteSlice data 0x10 16) = none) :
    _parse_telemetry s now data =
      ({ s with data := some data, last_data_timestamp := some now },
       ParseOutcome.asciiError) := by
  unfold _parse_telemetry
  rw [if_neg (by simp [hlen]), if_neg (by push_neg; exact ⟨h8, h9⟩), hser]

theorem parse_ok_eq (s : TelemetryState) (now : Nat) (data : List Nat)
    (serial : String)
    (hlen : data.length = EXPECTED_TELEMETRY_SIZE)
    (h8 : data.getD 8 0 = 0x05) (h9 : data.getD 9 0 = 0x13)
    (hser : decode_ascii (byteSlice data 0x10 16) = some serial) :
    _parse_telemetry s now data =
      ({ s with
          data := some data
          last_data_timestamp := some now
          serial_no := some serial
          charge_percentage_battery := some (data.getD 35 0)
          unknown1 := some (data.getD 39 0)
          temperature_battery := some (data.getD 73 0)
          power_solar_in := some ((_parse_int data 77 : ℚ) / 10)
          power_ac_out := some ((_parse_int data 84 : ℚ) / 10)
          unknown3 := some ((_parse_int32 data 103 : ℚ) / 100000)
          energy_solar_total_in := some ((_parse_int32 data 110 : ℚ) / 10000)
          energy_battery_total_in := some ((_parse_int32 data 117 : ℚ) / 100000)
          energy_total_out := some ((_parse_int32 data 124 : ℚ) / 10000)
          power_battery_discharge := some ((_parse_int32 data 132 : ℚ) / 100) },
       ParseOutcome.ok) := by
  unfold _parse_telemetry
  rw [if_neg (by simp [hlen]), if_neg (by push_neg; exact ⟨h8, h9⟩), hser]

/-! ## Helper lemmas: little-endian readings as explicit byte arithmetic -/

theorem byteSlice_succ (l : List Nat) (i n : Nat) (h : i < l.length) :
    byteSlice l i (n + 1) = l.getD i 0 :: byteSlice l (i + 1) n := by
  unfold byteSlice
  rw [List.drop_eq_getElem_cons h, List.getD_eq_getElem l 0 h]
  rfl

theorem byteSlice_two (l : List Nat) (i : Nat) (h : i + 1 < l.length) :
    byteSlice l i 2 = [l.getD i 0, l.getD (i + 1) 0] := by
  rw [byteSlice_succ l i 1 (by omega), byteSlice_succ l (i + 1) 0 (by omega)]
  rfl

theorem byteSlice_four (l : List Nat) (i : Nat) (h : i + 3 < l.length) :
    byteSlice l i 4 =
      [l.getD i 0, l.getD (i + 1) 0, l.getD (i + 2) 0, l.getD (i + 3) 0] := by
  rw [byteSlice_succ l i 3 (by omega), byteSlice_succ l (i + 1) 2 (by omega),
    byteSlice_succ l (i + 1 + 1) 1 (by omega),
    byteSlice_succ l (i + 1 + 1 + 1) 0 (by omega)]
  rfl

theorem _parse_int_eq (l : List Nat) (i : Nat) (h : i + 1 < l.length) :
    _parse_int l i = l.getD i 0 + 256 * l.getD (i + 1) 0 := by
  unfold _parse_int
  rw [byteSlice_two l i h]
  simp [from_bytes_le]

theorem _parse_int32_eq (l : List Nat) (i : Nat) (h : i + 3 < l.length) :
    _parse_int32 l i =
      l.getD i 0 + 256 * l.getD (i + 1) 0 + 65536 * l.getD (i + 2) 0
        + 16777216 * l.getD (i + 3) 0 := by
  unfold _parse_int32
  rw [byteSlice_four l i h]
  simp [from_bytes_le]
  ring

theorem decode_ascii_all (bs : List Nat)
    (h : bs.all (fun b => b < 128) = true) :
    decode_ascii bs = some (String.mk (bs.map Char.ofNat)) := by
  simp [decode_ascii]
  intro x hx
  have := List.all_eq_true.mp h x hx
  simpa using this

/-! ## Concrete frames used as inputs -/

/-- Frame of 253 bytes with correct marker whose serial field (bytes
0x10-0x20) contains the non-ASCII byte `0xFF` at offset 0x10. -/
def c1Frame : List Nat :=
  (((List.replicate 253 0).set 8 0x05).set 9 0x13).set 16 0xFF

/-- Frame of 253 zero bytes: wrong marker (bytes 8-9 are `0x00, 0x00`). -/
def c3Frame : List Nat := List.replicate 253 0

/-- Valid frame: correct marker, all-NUL ASCII serial, bytes 77-78 equal
`0x64, 0x00`. -/
def c4Frame : List Nat :=
  (((List.replicate 253 0).set 8 0x05).set 9 0x13).set 77 0x64

/-- Valid frame whose discharge field (bytes 132-135) is `FF FF FF FF`,
a wire value with the sign bit set. -/
def c8Frame : List Nat :=
  ((((((List.replicate 253 0).set 8 0x05).set 9 0x13).set 132 0xFF).set
    133 0xFF).set 134 0xFF).set 135 0xFF

/-- Valid frame whose byte 91 (the offset of the commented-out `unknown2`
read) is `7`. -/
def c9Frame : List Nat :=
  (((List.replicate 253 0).set 8 0x05).set 9 0x13).set 91 7

/-! ## Claims -/

/-- C1, as stated, is false: on a 253-byte payload with correct marker
whose serial field contains a non-ASCII byte, `_parse_telemetry` raises,
yet the stored data and the last-update timestamp have already been
changed — the prior telemetry state is not left exactly as it was. -/
theorem C1_counterexample :
    (_parse_telemetry initTelemetry 42 c1Frame).2 = ParseOutcome.asciiError ∧
    (_parse_telemetry initTelemetry 42 c1Frame).1.data ≠ initTelemetry.data ∧
    (_parse_telemetry initTelemetry 42 c1Frame).1.last_data_timestamp ≠
      initTelemetry.last_data_timestamp := by
  decide

/-- C1 (amended): for every 253-byte payload with correct marker bytes
whose serial-field extraction fails, `_parse_telemetry` fails with an
extraction error (Python raises `UnicodeDecodeError`) and every decoded
telemetry field keeps its prior value, but the stored raw data and the
last-update timestamp have already been overwritten: the update is
partial, not atomic. -/
theorem C1_ascii_failure_partial_update (s : TelemetryState) (now : Nat)
    (data : List Nat)
    (hlen : data.length = EXPECTED_TELEMETRY_SIZE)
    (h8 : data.getD 8 0 = 0x05) (h9 : data.getD 9 0 = 0x13)
    (hser : decode_ascii (byteSlice data 0x10 16) = none) :
    (_parse_telemetry s now data).2 = ParseOutcome.asciiError ∧
    (_parse_telemetry s now data).1.serial_no = s.serial_no ∧
    (_parse_telemetry s now data).1.charge_percentage_battery =
      s.charge_percentage_battery ∧
    (_parse_telemetry s now data).1.temperature_battery =
      s.temperature_battery ∧
    (_parse_telemetry s now data).1.power_battery_discharge =
      s.power_battery_discharge ∧
    (_parse_telemetry s now data).1.energy_battery_total_in =
      s.energy_battery_total_in ∧
    (_parse_telemetry s now data).1.power_ac_out = s.power_ac_out ∧
    (_parse_telemetry s now data).1.power_solar_in = s.power_solar_in ∧
    (_parse_telemetry s now data).1.energy_solar_total_in =
      s.energy_solar_total_in ∧
    (_parse_telemetry s now data).1.energy_total_out = s.energy_total_out ∧
    (_parse_telemetry s now data).1.unknown1 = s.unknown1 ∧
    (_parse_telemetry s now data).1.unknown2 = s.unknown2 ∧
    (_parse_telemetry s now data).1.unknown3 = s.unknown3 ∧
    (_parse_telemetry s now data).1.data = some data ∧
    (_parse_telemetry s now data).1.last_data_timestamp = some now := by
  rw [parse_ascii_eq s now data hlen h8 h9 hser]
  simp

/-- Witness for C1 at the concrete frame `c1Frame`. -/
theorem C1_witness :
    (_parse_telemetry initTelemetry 42 c1Frame).2 = ParseOutcome.asciiError ∧
    (_parse_telemetry initTelemetry 42 c1Frame).1.serial_no = none ∧
    (_parse_telemetry initTelemetry 42 c1Frame).1.data = some c1Frame := by
  have h := C1_ascii_failure_partial_update initTelemetry 42 c1Frame
    (by decide) (by decide) (by decide) (by decide)
  exact ⟨h.1, h.2.1, h.2.2.2.2.2.2.2.2.2.2.2.2.2.1⟩

/-- C3: a payload of length other than 253, or a 253-byte payload whose
bytes at offsets 8 and 9 are not `0x05, 0x13`, is a no-op for
`_parse_telemetry`: the telemetry state is returned unchanged, and the
outcome is neither a successful snapshot nor an error. -/
theorem C3_invalid_frame_noop (s : TelemetryState) (now : Nat)
    (data : List Nat)
    (h : data.length ≠ EXPECTED_TELEMETRY_SIZE ∨
      (data.getD 8 0 ≠ 0x05 ∨ data.getD 9 0 ≠ 0x13)) :
    (_parse_telemetry s now data).1 = s ∧
    (_parse_telemetry s now data).2 ≠ ParseOutcome.ok ∧
    (_parse_telemetry s now data).2 ≠ ParseOutcome.asciiError := by
  by_cases hl : data.length = EXPECTED_TELEMETRY_SIZE
  · have hm : data.getD 8 0 ≠ 0x05 ∨ data.getD 9 0 ≠ 0x13 := by
      rcases h with h | h
      · exact absurd hl h
      · exact h
    rw [parse_type_eq s now data hl hm]
    simp
  · rw [parse_size_eq s now data hl]
    simp

/-- Witness for C3 at the empty payload and at an all-zero 253-byte
payload. -/
theorem C3_witness :
    (_parse_telemetry initTelemetry 0 []).1 = initTelemetry ∧
    (_parse_telemetry initTelemetry 0 []).2 ≠ ParseOutcome.ok ∧
    (_parse_telemetry initTelemetry 0 c3Frame).1 = initTelemetry ∧
    (_parse_telemetry initTelemetry 0 c3Frame).2 ≠ ParseOutcome.ok := by
  have h1 := C3_invalid_frame_noop initTelemetry 0 [] (Or.inl (by decide))
  have h2 := C3_invalid_frame_noop initTelemetry 0 c3Frame
    (Or.inr (Or.inl (by decide)))
  exact ⟨h1.1, h1.2.1, h2.1, h2.2.1⟩

/-- C4: on every valid 253-byte telemetry frame (correct marker, ASCII
serial) the decode succeeds and each decoded field equals the fixed-width
little-endian integer read at its documented offset, divided by its
documented scale; in particular, bytes 77-78 equal to `0x64, 0x00` give a
decoded solar input power of 10 W. -/
theorem C4_valid_frame_fields (s : TelemetryState) (now : Nat)
    (data : List Nat)
    (hlen : data.length = EXPECTED_TELEMETRY_SIZE)
    (h8 : data.getD 8 0 = 0x05) (h9 : data.getD 9 0 = 0x13)
    (hascii : (byteSlice data 0x10 16).all (fun b => b < 128) = true) :
    (_parse_telemetry s now data).2 = ParseOutcome.ok ∧
    (_parse_telemetry s now data).1.serial_no =
      some (String.mk ((byteSlice data 0x10 16).map Char.ofNat)) ∧
    (_parse_telemetry s now data).1.charge_percentage_battery =
      some (data.getD 35 0) ∧
    (_parse_telemetry s now data).1.temperature_battery =
      some (data.getD 73 0) ∧
    (_parse_telemetry s now data).1.power_solar_in =
      some (((data.getD 77 0 + 256 * data.getD 78 0 : ℕ) : ℚ) / 10) ∧
    (_parse_telemetry s now data).1.power_ac_out =
      some (((data.getD 84 0 + 256 * data.getD 85 0 : ℕ) : ℚ) / 10) ∧
    (_parse_telemetry s now data).1.unknown3 =
      some (((data.getD 103 0 + 256 * data.getD 104 0 + 65536 * data.getD 105 0
        + 16777216 * data.getD 106 0 : ℕ) : ℚ) / 100000) ∧
    (_parse_telemetry s now data).1.energy_solar_total_in =
      some (((data.getD 110 0 + 256 * data.getD 111 0 + 65536 * data.getD 112 0
        + 16777216 * data.getD 113 0 : ℕ) : ℚ) / 10000) ∧
    (_parse_telemetry s now data).1.energy_battery_total_in =
      some (((data.getD 117 0 + 256 * data.getD 118 0 + 65536 * data.getD 119 0
        + 16777216 * data.getD 120 0 : ℕ) : ℚ) / 100000) ∧
    (_parse_telemetry s now data).1.energy_total_out =
      some (((data.getD 124 0 + 256 * data.getD 125 0 + 65536 * data.getD 126 0
        + 16777216 * data.getD 127 0 : ℕ) : ℚ) / 10000) ∧
    (_parse_telemetry s now data).1.power_battery_discharge =
      some (((data.getD 132 0 + 256 * data.getD 133 0 + 65536 * data.getD 134 0
        + 16777216 * data.getD 135 0 : ℕ) : ℚ) / 100) ∧
    (data.getD 77 0 = 0x64 → data.getD 78 0 = 0x00 →
      (_parse_telemetry s now data).1.power_solar_in = some 10) := by
  have h253 : data.length = 253 := hlen
  have hser := decode_ascii_all _ hascii
  rw [parse_ok_eq s now data _ hlen h8 h9 hser]
  rw [_parse_int_eq data 77 (by omega), _parse_int_eq data 84 (by omega),
    _parse_int32_eq data 103 (by omega), _parse_int32_eq data 110 (by omega),
    _parse_int32_eq data 117 (by omega), _parse_int32_eq data 124 (by omega),
    _parse_int32_eq data 132 (by omega)]
  refine ⟨rfl, rfl, rfl, rfl, rfl, rfl, rfl, rfl, rfl, rfl, rfl, ?_⟩
  intro h77 h78
  rw [h77, h78]
  norm_num

/-- Witness for C4 at the concrete frame `c4Frame` (bytes 77-78 are
`0x64, 0x00`): the decode succeeds and the solar input power is 10 W. -/
theorem C4_witness :
    (_parse_telemetry initTelemetry 42 c4Frame).2 = ParseOutcome.ok ∧
    (_parse_telemetry initTelemetry 42 c4Frame).1.power_solar_in =
      some 10 := by
  have h := C4_valid_frame_fields initTelemetry 42 c4Frame
    (by decide) (by decide) (by decide) (by decide)
  exact ⟨h.1, h.2.2.2.2.2.2.2.2.2.2.2 (by decide) (by decide)⟩

/-- C8, as stated, is false: the wire value at bytes 132-135 of `c8Frame`
is `0xFFFFFFFF`, whose sign bit (bit 31) is set, yet the decoded battery
discharge power is the positive value 42949672.95 W — the field is read
unsigned, not signed. -/
theorem C8_counterexample :
    2 ^ 31 ≤ _parse_int32 c8Frame 132 ∧
    (_parse_telemetry initTelemetry 42 c8Frame).1.power_battery_discharge =
      some ((4294967295 : ℚ) / 100) ∧
    (0 : ℚ) < (4294967295 : ℚ) / 100 := by
  refine ⟨by decide, ?_, by norm_num⟩
  rw [parse_ok_eq initTelemetry 42 c8Frame
    (String.mk (List.replicate 16 (Char.ofNat 0)))
    (by decide) (by decide) (by decide) (by decide)]
  rw [show _parse_int32 c8Frame 132 = 4294967295 from by decide]
  norm_num

/-- C8 (amended): on every valid telemetry frame the battery discharge
power is decoded from the 32-bit little-endian field at bytes 132-135
with scale 1/100, read as an UNSIGNED integer: the decoded value is
always nonnegative, so sign-bit-set wire values decode to large positive
Watts rather than negative ones. -/
theorem C8_discharge_unsigned (s : TelemetryState) (now : Nat)
    (data : List Nat)
    (hlen : data.length = EXPECTED_TELEMETRY_SIZE)
    (h8 : data.getD 8 0 = 0x05) (h9 : data.getD 9 0 = 0x13)
    (hascii : (byteSlice data 0x10 16).all (fun b => b < 128) = true) :
    (_parse_telemetry s now data).1.power_battery_discharge =
      some (((data.getD 132 0 + 256 * data.getD 133 0 + 65536 * data.getD 134 0
        + 16777216 * data.getD 135 0 : ℕ) : ℚ) / 100) ∧
    (0 : ℚ) ≤ ((data.getD 132 0 + 256 * data.getD 133 0
        + 65536 * data.getD 134 0 + 16777216 * data.getD 135 0 : ℕ) : ℚ) / 100 := by
  have h253 : data.length = 253 := hlen
  have hser := decode_ascii_all _ hascii
  rw [parse_ok_eq s now data _ hlen h8 h9 hser]
  rw [_parse_int32_eq data 132 (by omega)]
  exact ⟨rfl, by positivity⟩

/-- Witness for C8 (amended) at the concrete frame `c8Frame`. -/
theorem C8_witness :
    (_parse_telemetry initTelemetry 42 c8Frame).1.power_battery_discharge =
      some (((c8Frame.getD 132 0 + 256 * c8Frame.getD 133 0
        + 65536 * c8Frame.getD 134 0
        + 16777216 * c8Frame.getD 135 0 : ℕ) : ℚ) / 100) ∧
    (0 : ℚ) ≤ ((c8Frame.getD 132 0 + 256 * c8Frame.getD 133 0
        + 65536 * c8Frame.getD 134 0
        + 16777216 * c8Frame.getD 135 0 : ℕ) : ℚ) / 100 :=
  C8_discharge_unsigned initTelemetry 42 c8Frame
    (by decide) (by decide) (by decide) (by decide)

/-- C9, as stated, is false: on the valid frame `c9Frame`, whose byte 91
is 7, the decode succeeds but `unknown2` is not extracted — it keeps its
prior value `none` (the assignment is commented out in the source), so
one of the three unidentified fields IS dropped. -/
theorem C9_counterexample :
    (_parse_telemetry initTelemetry 42 c9Frame).2 = ParseOutcome.ok ∧
    c9Frame.getD 91 0 = 7 ∧
    (_parse_telemetry initTelemetry 42 c9Frame).1.unknown2 = none := by
  decide

/-- C9 (amended): on every valid telemetry frame only two of the three
unidentified fields are extracted and retained — `unknown1` from byte 39
and `unknown3` from bytes 103-106 scaled by 1/100000 — while `unknown2`
is left at its prior value (its extraction is commented out). -/
theorem C9_unknown_fields (s : TelemetryState) (now : Nat)
    (data : List Nat)
    (hlen : data.length = EXPECTED_TELEMETRY_SIZE)
    (h8 : data.getD 8 0 = 0x05) (h9 : data.getD 9 0 = 0x13)
    (hascii : (byteSlice data 0x10 16).all (fun b => b < 128) = true) :
    (_parse_telemetry s now data).1.unknown1 = some (data.getD 39 0) ∧
    (_parse_telemetry s now data).1.unknown3 =
      some (((data.getD 103 0 + 256 * data.getD 104 0 + 65536 * data.getD 105 0
        + 16777216 * data.getD 106 0 : ℕ) : ℚ) / 100000) ∧
    (_parse_telemetry s now data).1.unknown2 = s.unknown2 := by
  have h253 : data.length = 253 := hlen
  have hser := decode_ascii_all _ hascii
  rw [parse_ok_eq s now data _ hlen h8 h9 hser]
  rw [_parse_int32_eq data 103 (by omega)]
  exact ⟨rfl, rfl, rfl⟩

/-- Witness for C9 (amended) at the concrete frame `c9Frame`. -/
theorem C9_witness :
    (_parse_telemetry initTelemetry 42 c9Frame).1.unknown1 = some 0 ∧
    (_parse_telemetry initTelemetry 42 c9Frame).1.unknown2 =
      initTelemetry.unknown2 := by
  have h := C9_unknown_fields initTelemetry 42 c9Frame
    (by decide) (by decide) (by decide) (by decide)
  exact ⟨by rw [h.1]; rfl, h.2.2⟩

/-- C2, as stated, is false: with callbacks `1` (raises) and `2`
registered in that order, a single notification invokes only callback
`1`; callback `2` is never invoked and the exception propagates to the
caller instead of being isolated. -/
theorem C2_counterexample :
    _run_state_changed_callbacks
      (add_callback (add_callback [] (1, true)) (2, false)) = ([1], true) ∧
    (2 : Nat) ∉ [1] := by
  decide

/-- C2 (amended): a single notification invokes each registered callback
exactly once, in registration order, synchronously — as long as no
callback raises; when a callback raises, the loop stops there, the
exception propagates to the caller, and the callbacks registered after
it are NOT invoked. -/
theorem C2_callbacks_stop_at_raise :
    (∀ cbs : List Callback, (∀ f ∈ cbs, f.2 = false) →
      _run_state_changed_callbacks cbs = (cbs.map Prod.fst, false)) ∧
    (∀ (pre : List Callback) (c : Callback) (post : List Callback),
      (∀ f ∈ pre, f.2 = false) → c.2 = true →
      _run_state_changed_callbacks (pre ++ c :: post) =
        (pre.map Prod.fst ++ [c.1], true)) := by
  constructor
  · intro cbs h
    induction cbs with
    | nil => rfl
    | cons f rest ih =>
      have hf : f.2 = false := h f (List.mem_cons_self f rest)
      have hr := ih fun g hg => h g (List.mem_cons_of_mem f hg)
      simp [_run_state_changed_callbacks, hf, hr]
  · intro pre c post hpre hc
    induction pre with
    | nil => simp [_run_state_changed_callbacks, hc]
    | cons f rest ih =>
      have hf : f.2 = false := hpre f (List.mem_cons_self f rest)
      have hr := ih fun g hg => hpre g (List.mem_cons_of_mem f hg)
      simp [_run_state_changed_callbacks, hf, hr]

/-- Witness for C2 (amended): two non-raising callbacks are both invoked
in order; with a raising callback in the middle, invocation stops there. -/
theorem C2_witness :
    _run_state_changed_callbacks [(1, false), (2, false)] =
      ([1, 2], false) ∧
    _run_state_changed_callbacks [(1, false), (2, true), (3, false)] =
      ([1, 2], true) := by
  refine ⟨C2_callbacks_stop_at_raise.1 [(1, false), (2, false)] (by decide), ?_⟩
  have h := C2_callbacks_stop_at_raise.2 [(1, false)] (2, true) [(3, false)]
    (by decide) rfl
  simpa using h

/-- C5: when the device is already connected and telemetry-subscribed,
`connect` performs no link establishment, no attribute probe and no
subscription, and returns `true`. -/
theorem C5_connect_idempotent (env : ConnectEnv) (rc : Bool)
    (s : SessionState) (hconn : connected s = true)
    (havail : available s = true) :
    (connect env rc s).1 = true ∧
    Action.establishLink ∉ (connect env rc s).2.2 ∧
    Action.probeServices ∉ (connect env rc s).2.2 ∧
    Action.subscribe ∉ (connect env rc s).2.2 := by
  unfold connect
  cases rc <;> simp [hconn, havail]

/-- Session state used to witness C5 and an environment in which any
fresh link establishment would fail. -/
def c5State : SessionState where
  client := some ⟨1, true⟩
  supports_telemetry := true
  expect_disconnect := false
  connection_attempts := 0
  timed_out := false
  has_reconnect_task := false

def c5Env : ConnectEnv where
  establish := none
  has_telemetry_char := false
  probe_raises := false
  subscribe_raises := false

/-- Witness for C5 at a connected, telemetry-subscribed state. -/
theorem C5_witness :
    (connect c5Env true c5State).1 = true ∧
    Action.establishLink ∉ (connect c5Env true c5State).2.2 :=
  have h := C5_connect_idempotent c5Env true c5State (by decide) (by decide)
  ⟨h.1, h.2.1⟩

/-- C6: a disconnect signal whose originating client differs from the
currently held client is ignored: the state (including the
telemetry-capability flag) is unchanged, no reconnect task is scheduled,
and no observer callback is invoked. -/
theorem C6_stale_disconnect_ignored (s : SessionState) (c : Client)
    (h : some c ≠ s.client) :
    _disconnect_callback s c = (s, []) := by
  unfold _disconnect_callback
  rw [if_pos h]

/-- Session state used to witness C6: client `1` is held, the signal
comes from client `2`. -/
def c6State : SessionState where
  client := some ⟨1, true⟩
  supports_telemetry := true
  expect_disconnect := false
  connection_attempts := 0
  timed_out := false
  has_reconnect_task := false

/-- Witness for C6 at a state holding client `1` and a signal from
client `2`. -/
theorem C6_witness :
    _disconnect_callback c6State ⟨2, true⟩ = (c6State, []) :=
  C6_stale_disconnect_ignored c6State ⟨2, true⟩ (by decide)

/-- Session state used as the C7 failing input: connected to client `1`
with the telemetry flag set. -/
def c7State : SessionState where
  client := some ⟨1, true⟩
  supports_telemetry := true
  expect_disconnect := false
  connection_attempts := 0
  timed_out := false
  has_reconnect_task := false

/-- C7: the code diverges from the claim at the connected state
`c7State`. `disconnect` does set the expected-disconnect flag, drops the
client reference and invokes no observer callbacks; but the unawaited
`self._client.disconnect()` at line 277 only creates and discards a
coroutine, so no link close is ever executed (no `closeLink` in the
trace), and the telemetry-capability flag is not cleared — neither by
`disconnect` itself, which never touches it, nor by the disconnect
handler, whose stale-client guard drops any later signal from the old
client because the reference is already `none`. -/
theorem C7_disconnect_missing_await :
    (disconnect c7State).1.expect_disconnect = true ∧
    (disconnect c7State).1.client = none ∧
    (disconnect c7State).1.supports_telemetry = true ∧
    (disconnect c7State).2 = [Action.discardCoroutine] ∧
    Action.closeLink ∉ (disconnect c7State).2 ∧
    Action.notifyObservers ∉ (disconnect c7State).2 ∧
    _disconnect_callback (disconnect c7State).1 ⟨1, true⟩ =
      ((disconnect c7State).1, []) := by
  decide

/-- C10: the derived accessor `power_battery` returns exactly
`power_solar_in` minus `power_ac_out` whenever both are known, and the
sentinel `-1` when either is unknown. -/
theorem C10_power_battery (s : TelemetryState) :
    (s.power_solar_in ≠ none → s.power_ac_out ≠ none →
      power_battery s = power_solar_in s - power_ac_out s) ∧
    ((s.power_solar_in = none ∨ s.power_ac_out = none) →
      power_battery s = -1) := by
  cases hsi : s.power_solar_in <;> cases hao : s.power_ac_out <;>
    simp [power_battery, power_solar_in, power_ac_out, hsi, hao,
      DEFAULT_METADATA_INT]

/-- Telemetry state used to witness C10: a snapshot with 10 W solar in
and 4 W AC out. -/
def c10State : TelemetryState :=
  { initTelemetry with power_solar_in := some 10, power_ac_out := some 4 }

/-- Witness for C10: with both fields known the accessor returns the
difference; on the fresh state it returns the sentinel. -/
theorem C10_witness :
    power_battery c10State =
      power_solar_in c10State - power_ac_out c10State ∧
    power_battery initTelemetry = -1 :=
  ⟨(C10_power_battery c10State).1 (by decide) (by decide),
   (C10_power_battery initTelemetry).2 (Or.inl rfl)⟩

end SolixBLE
